import Mathlib

/-!
# Dear ImGui / Direct3D 11 example program (`src/main.cpp`)

A shallow embedding of the control flow of the program.  The program is glue code
around three external libraries (Win32, Direct3D 11 / DXGI, Dear ImGui), so the
model is a state machine over

* the four file-scope handles (`g_pd3dDevice`, `g_pd3dDeviceContext`,
  `g_pSwapChain`, `g_mainRenderTargetView`), and
* a trace: the list of call statements the program executes, in execution
  order, with the arguments that matter.  Calls to the helpers of the program itself
  (`CreateDeviceD3D`, `CleanupDeviceD3D`, `CreateRenderTarget`,
  `CleanupRenderTarget`) are recorded like every other call statement.

Everything an external call decides (return values, what it stores through an
out-pointer, which window messages the operating system hands to `WndProc`
while the call is running) is an explicit input of the model.

The C++ `float` type is a type parameter `F` with the operations the program
uses (`*`, `/`, decimal literals); nothing is assumed about them.
-/

namespace ImGuiTutorial

/-! ## Platform types and constants (values of the Windows SDK headers) -/

/-- A pointer-valued handle (COM interface pointer or `HWND`); `0` is `nullptr`. -/
abbrev Handle := Nat

abbrev HRESULT := Int

abbrev LRESULT := Int

def S_OK : HRESULT := 0

def WM_DESTROY : Nat := 0x0002

def WM_SIZE : Nat := 0x0005

def WM_QUIT : Nat := 0x0012

def WM_SYSCOMMAND : Nat := 0x0112

def SIZE_MINIMIZED : Nat := 1

def SC_KEYMENU : Nat := 0xF100

def SW_SHOWDEFAULT : Nat := 10

def WS_OVERLAPPEDWINDOW : Nat := 0x00CF0000


def DXGI_FORMAT_UNKNOWN : Nat := 0

def DXGI_FORMAT_R8G8B8A8_UNORM : Nat := 28

def DXGI_SWAP_CHAIN_FLAG_ALLOW_MODE_SWITCH : Nat := 2

def DXGI_USAGE_RENDER_TARGET_OUTPUT : Nat := 0x20

def DXGI_SWAP_EFFECT_DISCARD : Nat := 0

def D3D_DRIVER_TYPE_HARDWARE : Nat := 1

def D3D_FEATURE_LEVEL_11_0 : Nat := 0xb000

def D3D_FEATURE_LEVEL_10_0 : Nat := 0xa000

/-- The conversion `(DWORD_PTR)(l)` of a signed `LPARAM` (`LONG_PTR`, 64 bits on
the x64 target) to the unsigned integer of the same width. -/
def DWORD_PTR_of (l : Int) : Nat := (l % 2 ^ 64).toNat

/-- The SDK macro `LOWORD(l)`, that is `((WORD)(((DWORD_PTR)(l)) & 0xffff))`. -/
def LOWORD (l : Int) : Nat := (DWORD_PTR_of l &&& 0xffff) % 2 ^ 16

/-- The SDK macro `HIWORD(l)`, that is `((WORD)((((DWORD_PTR)(l)) >> 16) & 0xffff))`. -/
def HIWORD (l : Int) : Nat := ((DWORD_PTR_of l >>> 16) &&& 0xffff) % 2 ^ 16

/-- The increment `counter++` of a C++ `int` (32 bits, signed).  The
result is the mathematical successor whenever that fits in an `int`; at
`INT_MAX` the increment overflows and the value wraps, which is what the
x86/x64 targets of this program produce. -/
def int_incr (c : Int) : Int := (c + 1 + 2 ^ 31) % 2 ^ 32 - 2 ^ 31

def INT_MAX : Int := 2 ^ 31 - 1

def INT_MIN : Int := -(2 ^ 31)

/-! ## Data model -/

/-- The ImGui vector of four floats. -/
structure ImVec4 (F : Type) where
  x : F
  y : F
  z : F
  w : F
deriving DecidableEq, Repr

/-- The Win32 `MSG` record (the fields the program or the model reads). -/
structure MSG where
  hwnd : Handle
  message : Nat
  wParam : Nat
  lParam : Int
deriving DecidableEq, Repr

/-- The swap-chain description built by `CreateDeviceD3D`. -/
structure DXGI_SWAP_CHAIN_DESC where
  BufferCount : Nat
  Width : Nat
  Height : Nat
  Format : Nat
  RefreshNumerator : Nat
  RefreshDenominator : Nat
  Flags : Nat
  BufferUsage : Nat
  OutputWindow : Handle
  SampleCount : Nat
  SampleQuality : Nat
  Windowed : Bool
  SwapEffect : Nat
deriving DecidableEq, Repr

/-- The COM interface a `Release` call goes through. -/
inductive Iface where
  | ID3D11RenderTargetView
  | IDXGISwapChain
  | ID3D11DeviceContext
  | ID3D11Device
  | ID3D11Texture2D
deriving DecidableEq, Repr

/-- An argument of a variadic `ImGui::Text` call. -/
inductive Arg (F : Type) where
  | int (v : Int)
  | float (v : F)
deriving DecidableEq, Repr

/-- One executed call statement. -/
inductive Call (F : Type) where
  -- the helpers of the program itself
  | CreateDeviceD3D (hWnd : Handle)
  | CleanupDeviceD3D
  | CreateRenderTarget
  | CleanupRenderTarget
  -- Win32
  | GetModuleHandle
  | RegisterClassExW
  | CreateWindowW (style : Nat) (x y width height : Int)
  | UnregisterClassW
  | ShowWindow (hwnd : Handle) (nCmdShow : Nat)
  | UpdateWindow (hwnd : Handle)
  | PeekMessage (retrieved : Option MSG)
  | TranslateMessage (msg : MSG)
  | DispatchMessage (msg : MSG)
  | DestroyWindow (hwnd : Handle)
  | PostQuitMessage (code : Int)
  | DefWindowProcW (hWnd : Handle) (msg : Nat) (wParam : Nat) (lParam : Int)
  -- Direct3D 11 / DXGI
  | D3D11CreateDeviceAndSwapChain (driverType : Nat) (flags : Nat)
      (featureLevels : List Nat) (sd : DXGI_SWAP_CHAIN_DESC)
  | Release (iface : Iface) (this : Handle)
  | GetBuffer (swapChain : Handle) (buffer : Nat)
  | CreateRenderTargetView (device : Handle) (resource : Handle)
  | ResizeBuffers (swapChain : Handle) (bufferCount width height format flags : Nat)
  | OMSetRenderTargets (context : Handle) (numViews : Nat) (view : Handle)
      (depthStencil : Handle)
  | ClearRenderTargetView (context : Handle) (view : Handle) (color : F × F × F × F)
  | Present (swapChain : Handle) (syncInterval flags : Nat)
  -- Dear ImGui
  | IMGUI_CHECKVERSION
  | ImGui_CreateContext
  | ImGui_GetIO_ref
  | ImGui_StyleColorsDark
  | ImGui_ImplWin32_Init (hwnd : Handle)
  | ImGui_ImplDX11_Init (device context : Handle)
  | ImGui_ImplDX11_NewFrame
  | ImGui_ImplWin32_NewFrame
  | ImGui_NewFrame
  | ImGui_ShowDemoWindow
  | ImGui_Begin (name : String) (hasOpenFlag : Bool)
  | ImGui_Text (fmt : String) (args : List (Arg F))
  | ImGui_Checkbox (label : String) (value : Bool)
  | ImGui_SliderFloat (label : String) (value vMin vMax : F)
  | ImGui_ColorEdit3 (label : String) (r g b : F)
  | ImGui_Button (label : String)
  | ImGui_SameLine
  | ImGui_End
  | ImGui_Render
  | ImGui_GetDrawData
  | ImGui_ImplDX11_RenderDrawData
  | ImGui_ImplDX11_Shutdown
  | ImGui_ImplWin32_Shutdown
  | ImGui_DestroyContext
  | ImGui_ImplWin32_WndProcHandler (hWnd : Handle) (msg : Nat) (wParam : Nat) (lParam : Int)
deriving Repr

/-- The file-scope handles of `main.cpp` together with the trace of executed calls. -/
structure State (F : Type) where
  g_pd3dDevice : Handle
  g_pd3dDeviceContext : Handle
  g_pSwapChain : Handle
  g_mainRenderTargetView : Handle
  trace : List (Call F)
deriving Repr

/-- The state at program start: the four statics are `nullptr`, nothing was called. -/
def State.start (F : Type) : State F :=
  { g_pd3dDevice := 0, g_pd3dDeviceContext := 0, g_pSwapChain := 0,
    g_mainRenderTargetView := 0, trace := [] }

/-- Record one executed call. -/
def State.emit {F : Type} (s : State F) (c : Call F) : State F :=
  { s with trace := s.trace ++ [c] }

/-- Record a block of executed calls. -/
def State.emitAll {F : Type} (s : State F) (cs : List (Call F)) : State F :=
  { s with trace := s.trace ++ cs }

/-- The four handles of a state, in declaration order
(device, device context, swap chain, render-target view). -/
def State.handles {F : Type} (s : State F) : Handle × Handle × Handle × Handle :=
  (s.g_pd3dDevice, s.g_pd3dDeviceContext, s.g_pSwapChain, s.g_mainRenderTargetView)

/-! ## Outcomes of the external calls -/

/-- What the two fallible calls of `CreateRenderTarget` do: the value of the
local `pBackBuffer` after `GetBuffer`, and what `CreateRenderTargetView` stores
through its out-pointer (`none`: it stores nothing).  The result codes are
carried along although the program discards them. -/
structure RenderTargetOutcome where
  getBufferResult : HRESULT
  backBuffer : Handle
  createViewResult : HRESULT
  view : Option Handle
deriving DecidableEq, Repr

/-- What `D3D11CreateDeviceAndSwapChain` does: its result code and what it stores
through the three out-pointers (`none`: nothing stored), followed by the outcome
of the `CreateRenderTarget` call made on success. -/
structure DeviceOutcome where
  res : HRESULT
  swapChain : Option Handle
  device : Option Handle
  context : Option Handle
  renderTarget : RenderTargetOutcome
deriving DecidableEq, Repr

/-- What the external calls made by one `WndProc` invocation do. -/
structure WndProcOutcome where
  handled : LRESULT
  resizeResult : HRESULT
  renderTarget : RenderTargetOutcome
  defResult : LRESULT
deriving DecidableEq, Repr

/-- One invocation of `WndProc` by the operating system. -/
structure Delivery where
  hWnd : Handle
  msg : Nat
  wParam : Nat
  lParam : Int
  outcome : WndProcOutcome
deriving DecidableEq, Repr

variable {F : Type}

/-! ## The device helpers (`main.cpp` lines 207-276) -/

/-- The function `CleanupRenderTarget` (line 273). -/
def CleanupRenderTarget (s : State F) : State F :=
  let s := s.emit .CleanupRenderTarget
  if s.g_mainRenderTargetView ≠ 0 then
    let s := s.emit (.Release .ID3D11RenderTargetView s.g_mainRenderTargetView)
    { s with g_mainRenderTargetView := 0 }
  else s

/-- The function `CreateRenderTarget` (line 264). -/
def CreateRenderTarget (o : RenderTargetOutcome) (s : State F) : State F :=
  let s := s.emit .CreateRenderTarget
  let s := s.emit (.GetBuffer s.g_pSwapChain 0)
  let pBackBuffer := o.backBuffer
  let s := s.emit (.CreateRenderTargetView s.g_pd3dDevice pBackBuffer)
  let s := { s with g_mainRenderTargetView := o.view.getD s.g_mainRenderTargetView }
  s.emit (.Release .ID3D11Texture2D pBackBuffer)

/-- The function `CleanupDeviceD3D` (line 256). -/
def CleanupDeviceD3D (s : State F) : State F :=
  let s := s.emit .CleanupDeviceD3D
  let s := CleanupRenderTarget s
  let s :=
    if s.g_pSwapChain ≠ 0 then
      { s.emit (.Release .IDXGISwapChain s.g_pSwapChain) with g_pSwapChain := 0 }
    else s
  let s :=
    if s.g_pd3dDeviceContext ≠ 0 then
      { s.emit (.Release .ID3D11DeviceContext s.g_pd3dDeviceContext) with
        g_pd3dDeviceContext := 0 }
    else s
  if s.g_pd3dDevice ≠ 0 then
    { s.emit (.Release .ID3D11Device s.g_pd3dDevice) with g_pd3dDevice := 0 }
  else s

/-- The swap-chain description of lines 211-225. -/
def swapChainDesc (hWnd : Handle) : DXGI_SWAP_CHAIN_DESC :=
  { BufferCount := 2, Width := 0, Height := 0, Format := DXGI_FORMAT_R8G8B8A8_UNORM,
    RefreshNumerator := 60, RefreshDenominator := 1,
    Flags := DXGI_SWAP_CHAIN_FLAG_ALLOW_MODE_SWITCH,
    BufferUsage := DXGI_USAGE_RENDER_TARGET_OUTPUT, OutputWindow := hWnd,
    SampleCount := 1, SampleQuality := 0, Windowed := true,
    SwapEffect := DXGI_SWAP_EFFECT_DISCARD }

/-- The function `CreateDeviceD3D` (line 207). -/
def CreateDeviceD3D (o : DeviceOutcome) (hWnd : Handle) (s : State F) : Bool × State F :=
  let s := s.emit (.CreateDeviceD3D hWnd)
  let createDeviceFlags := 0
  let s := s.emit (.D3D11CreateDeviceAndSwapChain D3D_DRIVER_TYPE_HARDWARE createDeviceFlags
    [D3D_FEATURE_LEVEL_11_0, D3D_FEATURE_LEVEL_10_0] (swapChainDesc hWnd))
  let s := { s with
    g_pSwapChain := o.swapChain.getD s.g_pSwapChain
    g_pd3dDevice := o.device.getD s.g_pd3dDevice
    g_pd3dDeviceContext := o.context.getD s.g_pd3dDeviceContext }
  if o.res ≠ S_OK then (false, s)
  else (true, CreateRenderTarget o.renderTarget s)

/-! ## The window procedure (`main.cpp` lines 283-309) -/

/-- The function `WndProc` (line 283).  The result `1` of the first branch is the C++ `true`
converted to `LRESULT`. -/
def WndProc (o : WndProcOutcome) (hWnd : Handle) (msg : Nat) (wParam : Nat) (lParam : Int)
    (s : State F) : LRESULT × State F :=
  let s := s.emit (.ImGui_ImplWin32_WndProcHandler hWnd msg wParam lParam)
  if o.handled ≠ 0 then (1, s)
  else if msg = WM_SIZE then
    if s.g_pd3dDevice ≠ 0 ∧ wParam ≠ SIZE_MINIMIZED then
      let s := CleanupRenderTarget s
      let s := s.emit (.ResizeBuffers s.g_pSwapChain 0 (LOWORD lParam) (HIWORD lParam)
        DXGI_FORMAT_UNKNOWN 0)
      let s := CreateRenderTarget o.renderTarget s
      (0, s)
    else (0, s)
  else if msg = WM_SYSCOMMAND then
    if wParam &&& 0xfff0 = SC_KEYMENU then (0, s)
    else (o.defResult, s.emit (.DefWindowProcW hWnd msg wParam lParam))
  else if msg = WM_DESTROY then
    (0, s.emit (.PostQuitMessage 0))
  else (o.defResult, s.emit (.DefWindowProcW hWnd msg wParam lParam))

/-- The `WndProc` invocations the operating system makes while one of its calls
(`CreateWindowW`, `ShowWindow`, `UpdateWindow`, `DispatchMessage`,
`DestroyWindow`) is running, in order; their results go to the operating system. -/
def deliver : List Delivery → State F → State F
  | [], s => s
  | d :: ds, s => deliver ds (WndProc d.outcome d.hWnd d.msg d.wParam d.lParam s).2

/-! ## The frame loop (`main.cpp` lines 87-188) -/

/-- The variables of `main` that persist across frames: the locals of lines
90-92 and the two block-scope statics of lines 128-129. -/
structure Locals (F : Type) where
  show_demo_window : Bool
  show_another_window : Bool
  clear_color : ImVec4 F
  f : F
  counter : Int
deriving DecidableEq, Repr

/-- What the widgets of one frame report: for a widget that takes a pointer, the
value it leaves in the pointed-to variable; for a button, its return value. -/
structure WidgetResults (F : Type) where
  demoWindowOpen : Bool
  checkboxDemo : Bool
  checkboxAnother : Bool
  sliderValue : F
  colorEdit : F × F × F
  button : Bool
  anotherWindowOpen : Bool
  closeMe : Bool
deriving DecidableEq, Repr

/-- One message retrieved by `PeekMessage`, with the `WndProc` invocations the
operating system makes while `DispatchMessage` runs for it. -/
structure PumpItem where
  msg : MSG
  onDispatch : List Delivery
deriving DecidableEq, Repr

/-- The inputs of one iteration of the frame loop: the messages `PeekMessage`
hands out before it reports an empty queue, the value of `io.Framerate`, and
the widget results. -/
structure FrameInput (F : Type) where
  batch : List PumpItem
  framerate : F
  widgets : WidgetResults F
deriving DecidableEq, Repr

/-- The inner `while (::PeekMessage(...))` loop of lines 102-108, started with
the current value of `done`. -/
def pumpMessages : List PumpItem → Bool → State F → Bool × State F
  | [], done, s => (done, s.emit (.PeekMessage none))
  | it :: rest, done, s =>
    let s := s.emit (.PeekMessage (some it.msg))
    let s := s.emit (.TranslateMessage it.msg)
    let s := s.emit (.DispatchMessage it.msg)
    let s := deliver it.onDispatch s
    let done := if it.msg.message = WM_QUIT then true else done
    pumpMessages rest done s

/-- The widget declarations of lines 123-167.  They touch only the persistent
variables, so the pass returns the new variables and the calls it made. -/
def widgetPass [Div F] [OfScientific F] (w : WidgetResults F) (framerate : F) (l : Locals F) :
    Locals F × List (Call F) :=
  -- lines 123-124
  let (l, t) :=
    if l.show_demo_window then
      ({ l with show_demo_window := w.demoWindowOpen }, [Call.ImGui_ShowDemoWindow])
    else (l, [])
  -- lines 131-133
  let t := t ++ [.ImGui_Begin "Hello, world!" false, .ImGui_Text "This is some text." []]
  -- lines 136-137
  let t := t ++ [.ImGui_Checkbox "Demo Window" l.show_demo_window]
  let l := { l with show_demo_window := w.checkboxDemo }
  let t := t ++ [.ImGui_Checkbox "Another Window" l.show_another_window]
  let l := { l with show_another_window := w.checkboxAnother }
  -- line 140
  let t := t ++ [.ImGui_SliderFloat "float" l.f 0.0 1.0]
  let l := { l with f := w.sliderValue }
  -- line 143
  let t := t ++ [.ImGui_ColorEdit3 "clear color" l.clear_color.x l.clear_color.y l.clear_color.z]
  let l := { l with clear_color :=
    { l.clear_color with x := w.colorEdit.1, y := w.colorEdit.2.1, z := w.colorEdit.2.2 } }
  -- lines 146-147
  let t := t ++ [.ImGui_Button "Button"]
  let l := if w.button then { l with counter := int_incr l.counter } else l
  -- lines 149-156
  let t := t ++ [.ImGui_SameLine, .ImGui_Text "counter = %d" [.int l.counter],
    .ImGui_Text "Application average %.3f ms/frame (%.1f FPS)"
      [.float (1000.0 / framerate), .float framerate],
    .ImGui_End]
  -- lines 160-167
  if l.show_another_window then
    let t := t ++ [.ImGui_Begin "Another Window" true]
    let l := { l with show_another_window := w.anotherWindowOpen }
    let t := t ++ [.ImGui_Text "Hello from another window!" [], .ImGui_Button "Close Me"]
    let l := if w.closeMe then { l with show_another_window := false } else l
    (l, t ++ [.ImGui_End])
  else (l, t)

/-- The array `clear_color_with_alpha` of lines 174-179. -/
def clear_color_with_alpha [Mul F] (c : ImVec4 F) : F × F × F × F :=
  (c.x * c.w, c.y * c.w, c.z * c.w, c.w)

/-- The part of a loop iteration after the message pump (lines 115-187). -/
def frameBody [Mul F] [Div F] [OfScientific F]
    (fi : FrameInput F) (l : Locals F) (s : State F) : Locals F × State F :=
  let s := s.emit .ImGui_ImplDX11_NewFrame
  let s := s.emit .ImGui_ImplWin32_NewFrame
  let s := s.emit .ImGui_NewFrame
  let (l, t) := widgetPass fi.widgets fi.framerate l
  let s := s.emitAll t
  let s := s.emit .ImGui_Render
  let s := s.emit (.OMSetRenderTargets s.g_pd3dDeviceContext 1 s.g_mainRenderTargetView 0)
  let s := s.emit (.ClearRenderTargetView s.g_pd3dDeviceContext s.g_mainRenderTargetView
    (clear_color_with_alpha l.clear_color))
  let s := s.emit .ImGui_GetDrawData
  let s := s.emit .ImGui_ImplDX11_RenderDrawData
  (l, s.emit (.Present s.g_pSwapChain 1 0))

/-- One iteration of `while (!done)` entered with `done = false` (lines 98-188):
the new value of `done`, the variables and the state. -/
def iteration [Mul F] [Div F] [OfScientific F]
    (fi : FrameInput F) (l : Locals F) (s : State F) : Bool × Locals F × State F :=
  let (done, s) := pumpMessages fi.batch false s
  if done then (true, l, s)
  else
    let (l, s) := frameBody fi l s
    (false, l, s)

/-- The loop `while (!done)` of lines 97-188 run on a script of iteration inputs.
The first component tells whether the loop has exited; it is `false` when the
script ends while the loop is still running. -/
def frameLoop [Mul F] [Div F] [OfScientific F]
    : List (FrameInput F) → Locals F → State F → Bool × Locals F × State F
  | [], l, s => (false, l, s)
  | fi :: rest, l, s =>
    match iteration fi l s with
    | (true, l, s) => (true, l, s)
    | (false, l, s) => frameLoop rest l s

/-! ## `main` (lines 25-202) -/

/-- Everything the environment decides during one run of `main`. -/
structure Env (F : Type) where
  hwnd : Handle
  onCreateWindow : List Delivery
  device : DeviceOutcome
  onShowWindow : List Delivery
  onUpdateWindow : List Delivery
  frames : List (FrameInput F)
  onDestroyWindow : List Delivery
deriving DecidableEq, Repr

/-- The initial values of the persistent variables (lines 90-92, 128-129). -/
def Locals.start [OfScientific F] : Locals F :=
  { show_demo_window := true, show_another_window := false,
    clear_color := { x := 0.45, y := 0.55, z := 0.60, w := 1.00 },
    f := 0.0, counter := 0 }

/-- The function `main` (line 25).  The first component is the exit code, or `none` when
the script of frame inputs ends before a quit message arrives (the loop is
still running). -/
def main [Mul F] [Div F] [OfScientific F] (env : Env F) : Option Int × State F :=
  let s := State.start F
  -- lines 30-53
  let s := s.emit .GetModuleHandle
  let s := s.emit .RegisterClassExW
  let s := s.emit (.CreateWindowW WS_OVERLAPPEDWINDOW 100 100 1280 800)
  let s := deliver env.onCreateWindow s
  let hwnd := env.hwnd
  -- lines 58-63
  match CreateDeviceD3D env.device hwnd s with
  | (false, s) =>
    let s := CleanupDeviceD3D s
    let s := s.emit .UnregisterClassW
    (some 1, s)
  | (true, s) =>
    -- lines 66-67
    let s := deliver env.onShowWindow (s.emit (.ShowWindow hwnd SW_SHOWDEFAULT))
    let s := deliver env.onUpdateWindow (s.emit (.UpdateWindow hwnd))
    -- lines 71-85
    let s := s.emit .IMGUI_CHECKVERSION
    let s := s.emit .ImGui_CreateContext
    let s := s.emit .ImGui_GetIO_ref
    let s := s.emit .ImGui_StyleColorsDark
    let s := s.emit (.ImGui_ImplWin32_Init hwnd)
    let s := s.emit (.ImGui_ImplDX11_Init s.g_pd3dDevice s.g_pd3dDeviceContext)
    -- lines 90-188
    match frameLoop env.frames Locals.start s with
    | (false, _, s) => (none, s)
    | (true, _, s) =>
      -- lines 193-201
      let s := s.emit .ImGui_ImplDX11_Shutdown
      let s := s.emit .ImGui_ImplWin32_Shutdown
      let s := s.emit .ImGui_DestroyContext
      let s := CleanupDeviceD3D s
      let s := deliver env.onDestroyWindow (s.emit (.DestroyWindow hwnd))
      let s := s.emit .UnregisterClassW
      (some 0, s)

/-! ## Definitions used to state the properties -/

/-- The `Release` call a guarded release statement makes on handle `h`: one call
when `h` is not null, none otherwise. -/
def releaseIf (i : Iface) (h : Handle) : List (Call F) :=
  if h ≠ 0 then [.Release i h] else []

/-- The widget declarations of the frame. -/
def Call.isWidget : Call F → Bool
  | .ImGui_ShowDemoWindow | .ImGui_Begin _ _ | .ImGui_Text _ _ | .ImGui_Checkbox _ _
  | .ImGui_SliderFloat _ _ _ _ | .ImGui_ColorEdit3 _ _ _ _ | .ImGui_Button _
  | .ImGui_SameLine | .ImGui_End => true
  | _ => false

/-- The colour argument of a `ClearRenderTargetView` call. -/
def Call.clearColorArg : Call F → Option (F × F × F × F)
  | .ClearRenderTargetView _ _ color => some color
  | _ => none

/-- The calls `WndProc` and the two render-target helpers can make. -/
def Call.fromWndProc : Call F → Bool
  | .ImGui_ImplWin32_WndProcHandler _ _ _ _ | .CleanupRenderTarget | .CreateRenderTarget
  | .Release _ _ | .ResizeBuffers _ _ _ _ _ _ | .GetBuffer _ _
  | .CreateRenderTargetView _ _ | .DefWindowProcW _ _ _ _ | .PostQuitMessage _ => true
  | _ => false

/-- The calls made while the message queue is drained: the three calls of the
pump itself and whatever `WndProc` does when a message is dispatched to it. -/
def Call.isPump : Call F → Bool
  | .PeekMessage _ | .TranslateMessage _ | .DispatchMessage _ => true
  | c => Call.fromWndProc c

/-- The calls of a frame after the pump: the three new-frame calls, the widget
declarations, `Render`, and the calls that draw and present. -/
def Call.isFrameCall : Call F → Bool
  | .ImGui_ImplDX11_NewFrame | .ImGui_ImplWin32_NewFrame | .ImGui_NewFrame
  | .ImGui_Render | .OMSetRenderTargets _ _ _ _ | .ClearRenderTargetView _ _ _
  | .ImGui_GetDrawData | .ImGui_ImplDX11_RenderDrawData | .Present _ _ _ => true
  | c => Call.isWidget c

/-- A `PeekMessage` call reporting an empty queue: the end of one drain. -/
def Call.isQueueEmpty : Call F → Bool
  | .PeekMessage none => true
  | _ => false

/-- The core `ImGui::NewFrame` call. -/
def Call.isNewFrame : Call F → Bool
  | .ImGui_NewFrame => true
  | _ => false

/-- The `ImGui::Render` call. -/
def Call.isRender : Call F → Bool
  | .ImGui_Render => true
  | _ => false

/-- Whether a pumped message is `WM_QUIT`. -/
def PumpItem.isQuit (it : PumpItem) : Bool := decide (it.msg.message = WM_QUIT)

/-- The state `t` extends the trace of `s` by calls that all satisfy `P`. -/
def Extends (P : Call F → Prop) (s t : State F) : Prop :=
  ∃ added, t.trace = s.trace ++ added ∧ ∀ c ∈ added, P c

/-! ## The lifecycle of the resources of `main` -/

/-- The resources `main` sets up, in the order it sets them up. -/
inductive Stage where
  | windowClass
  | window
  | device
  | uiContext
  | win32Adapter
  | dx11Adapter
deriving DecidableEq, Repr

inductive Phase where
  | init
  | teardown
deriving DecidableEq, Repr

/-- The order of initialisation in `main` (lines 41-85). -/
def initOrder : List Stage :=
  [.windowClass, .window, .device, .uiContext, .win32Adapter, .dx11Adapter]

/-- The call that initialises or tears down a resource. -/
def Call.lifecycle : Call F → Option (Phase × Stage)
  | .RegisterClassExW => some (.init, .windowClass)
  | .CreateWindowW _ _ _ _ _ => some (.init, .window)
  | .CreateDeviceD3D _ => some (.init, .device)
  | .ImGui_CreateContext => some (.init, .uiContext)
  | .ImGui_ImplWin32_Init _ => some (.init, .win32Adapter)
  | .ImGui_ImplDX11_Init _ _ => some (.init, .dx11Adapter)
  | .ImGui_ImplDX11_Shutdown => some (.teardown, .dx11Adapter)
  | .ImGui_ImplWin32_Shutdown => some (.teardown, .win32Adapter)
  | .ImGui_DestroyContext => some (.teardown, .uiContext)
  | .CleanupDeviceD3D => some (.teardown, .device)
  | .DestroyWindow _ => some (.teardown, .window)
  | .UnregisterClassW => some (.teardown, .windowClass)
  | _ => none

/-- The calls of the UI initialisation (lines 71-85). -/
def Call.isUIInit : Call F → Bool
  | .IMGUI_CHECKVERSION | .ImGui_CreateContext | .ImGui_GetIO_ref | .ImGui_StyleColorsDark
  | .ImGui_ImplWin32_Init _ | .ImGui_ImplDX11_Init _ _ => true
  | _ => false

/-- The calls written in the body of the frame loop (lines 98-188). -/
def Call.inFrameLoop : Call F → Bool
  | .PeekMessage _ | .TranslateMessage _ | .DispatchMessage _ => true
  | c => Call.isFrameCall c

/-- Whether the batch of a frame input contains a `WM_QUIT`. -/
def FrameInput.hasQuit (fi : FrameInput F) : Bool := fi.batch.any PumpItem.isQuit

/-! ## Concrete inputs for the evaluations -/

/-- A state with four live handles and an empty trace. -/
def liveState : State ℚ :=
  { g_pd3dDevice := 1, g_pd3dDeviceContext := 2, g_pSwapChain := 3,
    g_mainRenderTargetView := 4, trace := [] }

/-- The `lParam` of a `WM_SIZE` message for a 1280 x 800 client area. -/
def lParam1280x800 : Int := 800 * 65536 + 1280

/-- A resize on a removed device: `ResizeBuffers` and `CreateRenderTargetView`
return `DXGI_ERROR_DEVICE_REMOVED` (0x887A0005) and the view out-pointer
receives null. -/
def deviceRemoved : WndProcOutcome :=
  { handled := 0, resizeResult := -2005270523,
    renderTarget :=
      { getBufferResult := 0, backBuffer := 9, createViewResult := -2005270523,
        view := some 0 },
    defResult := 0 }

/-- A resize in which every call succeeds and the new view has handle 5. -/
def resizeOk : WndProcOutcome :=
  { handled := 0, resizeResult := 0,
    renderTarget :=
      { getBufferResult := 0, backBuffer := 9, createViewResult := 0, view := some 5 },
    defResult := 0 }

/-- Widget results of a frame in which only "Button" is activated. -/
def clickOnly : WidgetResults ℚ :=
  { demoWindowOpen := true, checkboxDemo := true, checkboxAnother := false,
    sliderValue := 0, colorEdit := (0.45, 0.55, 0.60), button := true,
    anotherWindowOpen := false, closeMe := false }

/-- The persistent variables with the counter at `INT_MAX`. -/
def counterAtMax : Locals ℚ :=
  { show_demo_window := true, show_another_window := false,
    clear_color := { x := 0.45, y := 0.55, z := 0.60, w := 1.00 },
    f := 0, counter := 2147483647 }

/-- The persistent variables with the counter at 41. -/
def counterAt41 : Locals ℚ :=
  { show_demo_window := true, show_another_window := false,
    clear_color := { x := 0.45, y := 0.55, z := 0.60, w := 1.00 },
    f := 0, counter := 41 }

/-- A frame in which the queue is empty and "Button" is activated. -/
def idleFrame : FrameInput ℚ :=
  { batch := [], framerate := 60, widgets := clickOnly }

/-- A frame whose batch holds the `WM_QUIT` posted after the window was closed. -/
def quitFrame : FrameInput ℚ :=
  { batch := [{ msg := { hwnd := 0, message := WM_QUIT, wParam := 0, lParam := 0 },
                onDispatch := [] }],
    framerate := 60, widgets := clickOnly }

/-- A device creation that succeeds: swap chain 3, device 1, context 2, view 4. -/
def deviceOk : DeviceOutcome :=
  { res := 0, swapChain := some 3, device := some 1, context := some 2,
    renderTarget :=
      { getBufferResult := 0, backBuffer := 9, createViewResult := 0, view := some 4 } }

/-- A device creation that fails with `E_FAIL` (0x80004005) after the platform
call stored a swap chain and a device but no context. -/
def deviceFailed : DeviceOutcome :=
  { res := -2147467259, swapChain := some 3, device := some 1, context := none,
    renderTarget :=
      { getBufferResult := 0, backBuffer := 0, createViewResult := 0, view := none } }

/-- A run with window 7 in which device creation fails. -/
def failedRun : Env ℚ :=
  { hwnd := 7, onCreateWindow := [], device := deviceFailed, onShowWindow := [],
    onUpdateWindow := [], frames := [], onDestroyWindow := [] }

/-- A run with window 7: one idle frame, then the quit message. -/
def shortRun : Env ℚ :=
  { hwnd := 7, onCreateWindow := [], device := deviceOk, onShowWindow := [],
    onUpdateWindow := [], frames := [idleFrame, quitFrame], onDestroyWindow := [] }

/-! ## Basic facts about the device helpers -/

theorem LOWORD_eq (l : Int) : LOWORD l = (l % 2 ^ 16).toNat := by
  unfold LOWORD DWORD_PTR_of
  have h : (0xffff : Nat) = 2 ^ 16 - 1 := by norm_num
  rw [h, Nat.and_pow_two_sub_one_eq_mod]
  have hn : ((l % 2 ^ 64).toNat : Int) = l % 2 ^ 64 :=
    Int.toNat_of_nonneg (Int.emod_nonneg _ (by norm_num))
  omega

theorem HIWORD_eq (l : Int) : HIWORD l = (l / 2 ^ 16 % 2 ^ 16).toNat := by
  unfold HIWORD DWORD_PTR_of
  have h : (0xffff : Nat) = 2 ^ 16 - 1 := by norm_num
  rw [h, Nat.and_pow_two_sub_one_eq_mod, Nat.shiftRight_eq_div_pow]
  have hn : ((l % 2 ^ 64).toNat : Int) = l % 2 ^ 64 :=
    Int.toNat_of_nonneg (Int.emod_nonneg _ (by norm_num))
  omega

theorem CleanupRenderTarget_eq (s : State F) :
    CleanupRenderTarget s =
      { s with
        g_mainRenderTargetView := 0
        trace := s.trace ++ (Call.CleanupRenderTarget ::
          releaseIf .ID3D11RenderTargetView s.g_mainRenderTargetView) } := by
  unfold CleanupRenderTarget releaseIf State.emit
  by_cases h : s.g_mainRenderTargetView = 0 <;> simp [h]

theorem CreateRenderTarget_eq (o : RenderTargetOutcome) (s : State F) :
    CreateRenderTarget o s =
      { s with
        g_mainRenderTargetView := o.view.getD s.g_mainRenderTargetView
        trace := s.trace ++ [Call.CreateRenderTarget, .GetBuffer s.g_pSwapChain 0,
          .CreateRenderTargetView s.g_pd3dDevice o.backBuffer,
          .Release .ID3D11Texture2D o.backBuffer] } := by
  simp [CreateRenderTarget, State.emit]

theorem CleanupDeviceD3D_eq (s : State F) :
    CleanupDeviceD3D s =
      { g_pd3dDevice := 0, g_pd3dDeviceContext := 0, g_pSwapChain := 0,
        g_mainRenderTargetView := 0,
        trace := s.trace ++ ([Call.CleanupDeviceD3D, .CleanupRenderTarget] ++
          releaseIf .ID3D11RenderTargetView s.g_mainRenderTargetView ++
          releaseIf .IDXGISwapChain s.g_pSwapChain ++
          releaseIf .ID3D11DeviceContext s.g_pd3dDeviceContext ++
          releaseIf .ID3D11Device s.g_pd3dDevice) } := by
  unfold CleanupDeviceD3D
  simp only [CleanupRenderTarget_eq]
  unfold releaseIf State.emit
  by_cases h1 : s.g_mainRenderTargetView = 0 <;> by_cases h2 : s.g_pSwapChain = 0 <;>
    by_cases h3 : s.g_pd3dDeviceContext = 0 <;> by_cases h4 : s.g_pd3dDevice = 0 <;>
    simp [h1, h2, h3, h4]

/-! ## The window procedure on `WM_SIZE` -/

theorem WndProc_size_skip_eq (o : WndProcOutcome) (hWnd wParam : Nat) (lParam : Int)
    (s : State F) (hclaim : o.handled = 0)
    (hskip : wParam = SIZE_MINIMIZED ∨ s.g_pd3dDevice = 0) :
    WndProc o hWnd WM_SIZE wParam lParam s =
      (0, s.emit (.ImGui_ImplWin32_WndProcHandler hWnd WM_SIZE wParam lParam)) := by
  unfold WndProc
  rcases hskip with h | h <;> simp [hclaim, h, State.emit]

theorem WndProc_size_resize_eq (o : WndProcOutcome) (hWnd wParam : Nat) (lParam : Int)
    (s : State F) (hclaim : o.handled = 0) (hdev : s.g_pd3dDevice ≠ 0)
    (hmin : wParam ≠ SIZE_MINIMIZED) :
    WndProc o hWnd WM_SIZE wParam lParam s =
      (0, { s with
        g_mainRenderTargetView := o.renderTarget.view.getD 0
        trace := s.trace ++ ([Call.ImGui_ImplWin32_WndProcHandler hWnd WM_SIZE wParam lParam,
            .CleanupRenderTarget] ++
          releaseIf .ID3D11RenderTargetView s.g_mainRenderTargetView ++
          [.ResizeBuffers s.g_pSwapChain 0 (LOWORD lParam) (HIWORD lParam)
              DXGI_FORMAT_UNKNOWN 0,
            .CreateRenderTarget, .GetBuffer s.g_pSwapChain 0,
            .CreateRenderTargetView s.g_pd3dDevice o.renderTarget.backBuffer,
            .Release .ID3D11Texture2D o.renderTarget.backBuffer]) }) := by
  unfold WndProc
  simp [hclaim, hdev, hmin, State.emit, CleanupRenderTarget_eq, CreateRenderTarget_eq]

/-- C2: `CleanupDeviceD3D` is idempotent.  From every state of the four
handles, one call leaves all four null and releases exactly the handles that
were not null (render-target view, swap chain, context, device, in that order,
once each); a second call right after it leaves the four handles null and
executes the two call statements `CleanupDeviceD3D`, `CleanupRenderTarget`
only: no `Release`. -/
theorem CleanupDeviceD3D_idempotent (s : State F) :
    (CleanupDeviceD3D s).handles = (0, 0, 0, 0) ∧
    (CleanupDeviceD3D s).trace = s.trace ++
      ([Call.CleanupDeviceD3D, .CleanupRenderTarget] ++
        releaseIf .ID3D11RenderTargetView s.g_mainRenderTargetView ++
        releaseIf .IDXGISwapChain s.g_pSwapChain ++
        releaseIf .ID3D11DeviceContext s.g_pd3dDeviceContext ++
        releaseIf .ID3D11Device s.g_pd3dDevice) ∧
    (CleanupDeviceD3D (CleanupDeviceD3D s)).handles = (CleanupDeviceD3D s).handles ∧
    (CleanupDeviceD3D (CleanupDeviceD3D s)).trace =
      (CleanupDeviceD3D s).trace ++ [Call.CleanupDeviceD3D, .CleanupRenderTarget] := by
  simp [CleanupDeviceD3D_eq, State.handles, releaseIf]

/-- C9: a `WM_SIZE` message that the ImGui handler did not claim and that has
`wParam = SIZE_MINIMIZED` or arrives while `g_pd3dDevice` is null: `WndProc`
returns 0, the four handles are unchanged, and the only call made is the one to
`ImGui_ImplWin32_WndProcHandler` (no `Release`, `ResizeBuffers`,
`CreateRenderTargetView` or `DefWindowProcW`). -/
theorem WndProc_size_skipped (o : WndProcOutcome) (hWnd wParam : Nat) (lParam : Int)
    (s : State F) (hclaim : o.handled = 0)
    (hskip : wParam = SIZE_MINIMIZED ∨ s.g_pd3dDevice = 0) :
    (WndProc o hWnd WM_SIZE wParam lParam s).1 = 0 ∧
    (WndProc o hWnd WM_SIZE wParam lParam s).2.handles = s.handles ∧
    (WndProc o hWnd WM_SIZE wParam lParam s).2.trace =
      s.trace ++ [.ImGui_ImplWin32_WndProcHandler hWnd WM_SIZE wParam lParam] := by
  rw [WndProc_size_skip_eq o hWnd wParam lParam s hclaim hskip]
  simp [State.emit, State.handles]

/-- C10: a `WM_SIZE` message that the ImGui handler did not claim, with
`g_pd3dDevice` non-null and `wParam ≠ SIZE_MINIMIZED`, for every `lParam`:
after the handler call `WndProc` runs `CleanupRenderTarget` (releasing the
current view if it is not null, and nulling it), calls `ResizeBuffers` with
buffer count 0, width `lParam mod 2^16`, height `(lParam div 2^16) mod 2^16`,
format `DXGI_FORMAT_UNKNOWN` and flags 0, then runs `CreateRenderTarget`
(`GetBuffer` of buffer 0, `CreateRenderTargetView` on it, release of the
buffer), and returns 0.  The view handle ends as what `CreateRenderTargetView`
stored, null if it stored nothing; the other three handles are unchanged. -/
theorem WndProc_size_resizes (o : WndProcOutcome) (hWnd wParam : Nat) (lParam : Int)
    (s : State F) (hclaim : o.handled = 0) (hdev : s.g_pd3dDevice ≠ 0)
    (hmin : wParam ≠ SIZE_MINIMIZED) :
    (WndProc o hWnd WM_SIZE wParam lParam s).1 = 0 ∧
    (WndProc o hWnd WM_SIZE wParam lParam s).2.trace =
      s.trace ++ ([Call.ImGui_ImplWin32_WndProcHandler hWnd WM_SIZE wParam lParam,
          .CleanupRenderTarget] ++
        releaseIf .ID3D11RenderTargetView s.g_mainRenderTargetView ++
        [.ResizeBuffers s.g_pSwapChain 0 (lParam % 2 ^ 16).toNat
            (lParam / 2 ^ 16 % 2 ^ 16).toNat DXGI_FORMAT_UNKNOWN 0,
          .CreateRenderTarget, .GetBuffer s.g_pSwapChain 0,
          .CreateRenderTargetView s.g_pd3dDevice o.renderTarget.backBuffer,
          .Release .ID3D11Texture2D o.renderTarget.backBuffer]) ∧
    (WndProc o hWnd WM_SIZE wParam lParam s).2.handles =
      (s.g_pd3dDevice, s.g_pd3dDeviceContext, s.g_pSwapChain,
        o.renderTarget.view.getD 0) := by
  rw [WndProc_size_resize_eq o hWnd wParam lParam s hclaim hdev hmin,
    LOWORD_eq, HIWORD_eq]
  simp [State.handles]

/-- Counterexample to C3 as stated: device non-null, window not minimized,
message not claimed, and `CreateRenderTargetView` fails; the render-target view
handle is null after `WndProc` returns. -/
theorem WndProc_size_view_null_when_create_fails :
    deviceRemoved.handled = 0 ∧ liveState.g_pd3dDevice ≠ 0 ∧ (0 : Nat) ≠ SIZE_MINIMIZED ∧
    (WndProc deviceRemoved 7 WM_SIZE 0 lParam1280x800 liveState).2.g_mainRenderTargetView
      = 0 := by
  refine ⟨rfl, by decide, by decide, ?_⟩
  rw [WndProc_size_resize_eq deviceRemoved 7 0 lParam1280x800 liveState rfl (by decide)
    (by decide)]
  rfl

/-- C3 (amended): a `WM_SIZE` message that the ImGui handler did not claim, with
`g_pd3dDevice` non-null and `wParam ≠ SIZE_MINIMIZED`: the render-target view
handle after `WndProc` returns is the handle `CreateRenderTargetView` stored
(null if it stored nothing), whatever `ResizeBuffers` and `GetBuffer` did.  So
when `CreateRenderTargetView` stores a handle `h` that is not null and differs
from the handle before the call, the handle afterwards is non-null and differs
from the handle before the call. -/
theorem WndProc_size_view_is_created_view (o : WndProcOutcome) (hWnd wParam : Nat)
    (lParam : Int) (s : State F) (hclaim : o.handled = 0) (hdev : s.g_pd3dDevice ≠ 0)
    (hmin : wParam ≠ SIZE_MINIMIZED) :
    (WndProc o hWnd WM_SIZE wParam lParam s).2.g_mainRenderTargetView =
      o.renderTarget.view.getD 0 ∧
    ∀ h, o.renderTarget.view = some h → h ≠ 0 → h ≠ s.g_mainRenderTargetView →
      (WndProc o hWnd WM_SIZE wParam lParam s).2.g_mainRenderTargetView ≠ 0 ∧
      (WndProc o hWnd WM_SIZE wParam lParam s).2.g_mainRenderTargetView ≠
        s.g_mainRenderTargetView := by
  rw [WndProc_size_resize_eq o hWnd wParam lParam s hclaim hdev hmin]
  refine ⟨rfl, ?_⟩
  intro h hv h0 hne
  simp [hv, h0, hne]

theorem WndProc_size_view_is_created_view_witness :
    resizeOk.handled = 0 ∧ liveState.g_pd3dDevice ≠ 0 ∧ (0 : Nat) ≠ SIZE_MINIMIZED ∧
    (WndProc resizeOk 7 WM_SIZE 0 lParam1280x800 liveState).2.g_mainRenderTargetView = 5 ∧
    (WndProc resizeOk 7 WM_SIZE 0 lParam1280x800 liveState).2.g_mainRenderTargetView ≠ 0 ∧
    (WndProc resizeOk 7 WM_SIZE 0 lParam1280x800 liveState).2.g_mainRenderTargetView ≠
      liveState.g_mainRenderTargetView :=
  ⟨rfl, by decide, by decide,
    (WndProc_size_view_is_created_view resizeOk 7 0 lParam1280x800 liveState rfl
      (by decide) (by decide)).1,
    (WndProc_size_view_is_created_view resizeOk 7 0 lParam1280x800 liveState rfl
      (by decide) (by decide)).2 5 rfl (by decide) (by decide)⟩

theorem WndProc_size_skipped_witness :
    resizeOk.handled = 0 ∧ ((1 : Nat) = SIZE_MINIMIZED ∨ liveState.g_pd3dDevice = 0) ∧
    (WndProc resizeOk 7 WM_SIZE 1 0 liveState).1 = 0 ∧
    (WndProc resizeOk 7 WM_SIZE 1 0 liveState).2.handles = (1, 2, 3, 4) ∧
    (WndProc resizeOk 7 WM_SIZE 1 0 liveState).2.trace =
      [.ImGui_ImplWin32_WndProcHandler 7 WM_SIZE 1 0] :=
  ⟨rfl, Or.inl rfl, WndProc_size_skipped resizeOk 7 1 0 liveState rfl (Or.inl rfl)⟩

theorem WndProc_size_resizes_witness :
    resizeOk.handled = 0 ∧ liveState.g_pd3dDevice ≠ 0 ∧ (0 : Nat) ≠ SIZE_MINIMIZED ∧
    (WndProc resizeOk 7 WM_SIZE 0 lParam1280x800 liveState).1 = 0 ∧
    (WndProc resizeOk 7 WM_SIZE 0 lParam1280x800 liveState).2.trace =
      [.ImGui_ImplWin32_WndProcHandler 7 WM_SIZE 0 lParam1280x800,
        .CleanupRenderTarget, .Release .ID3D11RenderTargetView 4,
        .ResizeBuffers 3 0 1280 800 DXGI_FORMAT_UNKNOWN 0,
        .CreateRenderTarget, .GetBuffer 3 0, .CreateRenderTargetView 1 9,
        .Release .ID3D11Texture2D 9] ∧
    (WndProc resizeOk 7 WM_SIZE 0 lParam1280x800 liveState).2.handles = (1, 2, 3, 5) :=
  ⟨rfl, by decide, by decide,
    WndProc_size_resizes resizeOk 7 0 lParam1280x800 liveState rfl (by decide) (by decide)⟩

/-! ## The widget pass and the clear colour -/

theorem widgetPass_counter_eq [Div F] [OfScientific F]
    (w : WidgetResults F) (fr : F) (l : Locals F) :
    (widgetPass w fr l).1.counter = if w.button then int_incr l.counter else l.counter := by
  unfold widgetPass
  by_cases h1 : l.show_demo_window <;> by_cases h2 : w.button <;>
    by_cases h3 : w.checkboxAnother <;> by_cases h4 : w.closeMe <;> simp [h1, h2, h3, h4]

theorem widgetPass_clear_color_eq [Div F] [OfScientific F]
    (w : WidgetResults F) (fr : F) (l : Locals F) :
    (widgetPass w fr l).1.clear_color =
      { x := w.colorEdit.1, y := w.colorEdit.2.1, z := w.colorEdit.2.2,
        w := l.clear_color.w } := by
  unfold widgetPass
  by_cases h1 : l.show_demo_window <;> by_cases h2 : w.button <;>
    by_cases h3 : w.checkboxAnother <;> by_cases h4 : w.closeMe <;> simp [h1, h2, h3, h4]

theorem widgetPass_isWidget [Div F] [OfScientific F] (w : WidgetResults F) (fr : F) (l : Locals F) :
    ∀ c ∈ (widgetPass w fr l).2, Call.isWidget c = true := by
  unfold widgetPass
  by_cases h1 : l.show_demo_window <;> by_cases h2 : w.button <;>
    by_cases h3 : w.checkboxAnother <;> by_cases h4 : w.closeMe <;>
    simp [h1, h2, h3, h4, Call.isWidget]

theorem frameBody_eq [Mul F] [Div F] [OfScientific F]
    (fi : FrameInput F) (l : Locals F) (s : State F) :
    frameBody fi l s =
      ((widgetPass fi.widgets fi.framerate l).1,
        { s with trace := s.trace ++
          ([Call.ImGui_ImplDX11_NewFrame, .ImGui_ImplWin32_NewFrame, .ImGui_NewFrame] ++
            (widgetPass fi.widgets fi.framerate l).2 ++
            [.ImGui_Render,
              .OMSetRenderTargets s.g_pd3dDeviceContext 1 s.g_mainRenderTargetView 0,
              .ClearRenderTargetView s.g_pd3dDeviceContext s.g_mainRenderTargetView
                (clear_color_with_alpha (widgetPass fi.widgets fi.framerate l).1.clear_color),
              .ImGui_GetDrawData, .ImGui_ImplDX11_RenderDrawData,
              .Present s.g_pSwapChain 1 0]) }) := by
  simp [frameBody, State.emit, State.emitAll]

theorem clearColorArg_of_isWidget (c : Call F) (h : Call.isWidget c = true) :
    Call.clearColorArg c = none := by
  cases c <;> simp [Call.isWidget, Call.clearColorArg] at h ⊢

/-- C4 (amended): the click counter across one widget pass.  If "Button" does not
report activation the counter is unchanged, for every counter value.  If it
does, the counter grows by exactly 1 for every `int` value below `INT_MAX`
(`2^31 - 1`).  The results of the other widgets (the two checkboxes, the
slider, the colour editor, the demo window, "Close Me") are arbitrary here and
do not enter the result. -/
theorem widgetPass_counter [Div F] [OfScientific F] (w : WidgetResults F) (fr : F) (l : Locals F) :
    (w.button = false → (widgetPass w fr l).1.counter = l.counter) ∧
    (w.button = true → INT_MIN ≤ l.counter → l.counter < INT_MAX →
      (widgetPass w fr l).1.counter = l.counter + 1) := by
  rw [widgetPass_counter_eq]
  constructor
  · intro h; simp [h]
  · intro h hlo hhi
    simp only [h, if_true, int_incr]
    unfold INT_MIN at hlo
    unfold INT_MAX at hhi
    omega

/-- C5: the colour handed to `ClearRenderTargetView` in a frame.  With
`(x, y, z, w)` the background colour after the widget pass, the frame makes
exactly one `ClearRenderTargetView` call and its colour argument is
`(x*w, y*w, z*w, w)`.  The colour after the pass has the three channels stored
by the colour editor and the alpha channel the frame started with. -/
theorem clear_color_premultiplied [Mul F] [Div F] [OfScientific F]
    (fi : FrameInput F) (l : Locals F) (s : State F) :
    (frameBody fi l s).2.trace.filterMap Call.clearColorArg =
      s.trace.filterMap Call.clearColorArg ++
        [((frameBody fi l s).1.clear_color.x * (frameBody fi l s).1.clear_color.w,
          (frameBody fi l s).1.clear_color.y * (frameBody fi l s).1.clear_color.w,
          (frameBody fi l s).1.clear_color.z * (frameBody fi l s).1.clear_color.w,
          (frameBody fi l s).1.clear_color.w)] ∧
    (frameBody fi l s).1.clear_color = (widgetPass fi.widgets fi.framerate l).1.clear_color ∧
    (frameBody fi l s).1.clear_color =
      { x := fi.widgets.colorEdit.1, y := fi.widgets.colorEdit.2.1,
        z := fi.widgets.colorEdit.2.2, w := l.clear_color.w } := by
  have hw : (widgetPass fi.widgets fi.framerate l).2.filterMap Call.clearColorArg = [] :=
    List.filterMap_eq_nil_iff.mpr fun c hc =>
      clearColorArg_of_isWidget c (widgetPass_isWidget _ _ _ c hc)
  rw [frameBody_eq]
  refine ⟨?_, rfl, widgetPass_clear_color_eq _ _ _⟩
  simp [List.filterMap_append, hw, Call.clearColorArg, clear_color_with_alpha]

/-! ## Traces of the window procedure and the pump -/

theorem Extends.refl (P : Call F → Prop) (s : State F) : Extends P s s :=
  ⟨[], by simp, by simp⟩

theorem Extends.trans {P : Call F → Prop} {s t u : State F}
    (h1 : Extends P s t) (h2 : Extends P t u) : Extends P s u := by
  obtain ⟨a, ha, pa⟩ := h1
  obtain ⟨b, hb, pb⟩ := h2
  refine ⟨a ++ b, by rw [hb, ha, List.append_assoc], ?_⟩
  intro c hc
  rcases List.mem_append.mp hc with h | h
  · exact pa c h
  · exact pb c h

theorem Extends.filterMap_eq {β : Type} {P : Call F → Prop} {s t : State F}
    (h : Extends P s t) (p : Call F → Option β) (hp : ∀ c, P c → p c = none) :
    t.trace.filterMap p = s.trace.filterMap p := by
  obtain ⟨a, ha, pa⟩ := h
  have : a.filterMap p = [] := List.filterMap_eq_nil_iff.mpr fun c hc => hp c (pa c hc)
  rw [ha, List.filterMap_append, this, List.append_nil]

theorem WndProc_extends (o : WndProcOutcome) (hWnd msg wParam : Nat) (lParam : Int)
    (s : State F) :
    Extends (fun c => Call.fromWndProc c = true) s (WndProc o hWnd msg wParam lParam s).2 := by
  unfold WndProc
  simp only [CleanupRenderTarget_eq, CreateRenderTarget_eq, State.emit, releaseIf]
  split_ifs <;>
    exact ⟨_, by simp only [List.append_assoc]; rfl, by simp [Call.fromWndProc]⟩

theorem deliver_extends (ds : List Delivery) (s : State F) :
    Extends (fun c => Call.fromWndProc c = true) s (deliver ds s) := by
  induction ds generalizing s with
  | nil => exact Extends.refl _ _
  | cons d ds ih => exact (WndProc_extends _ _ _ _ _ s).trans (ih _)

theorem WndProc_handles_of_no_device (o : WndProcOutcome) (hWnd msg wParam : Nat)
    (lParam : Int) (s : State F) (h : s.g_pd3dDevice = 0) :
    (WndProc o hWnd msg wParam lParam s).2.handles = s.handles := by
  unfold WndProc
  simp only [State.emit, h]
  split_ifs <;> simp_all [State.handles]

theorem deliver_handles_of_no_device (ds : List Delivery) (s : State F)
    (h : s.g_pd3dDevice = 0) : (deliver ds s).handles = s.handles := by
  induction ds generalizing s with
  | nil => rfl
  | cons d ds ih =>
    have h1 := WndProc_handles_of_no_device d.outcome d.hWnd d.msg d.wParam d.lParam s h
    have h2 : (WndProc d.outcome d.hWnd d.msg d.wParam d.lParam s).2.g_pd3dDevice = 0 := by
      have := congrArg Prod.fst h1
      simpa [State.handles, h] using this
    show (deliver ds _).handles = _
    rw [ih _ h2, h1]

theorem isPump_of_fromWndProc (c : Call F) (h : Call.fromWndProc c = true) :
    Call.isPump c = true := by
  cases c <;> simp_all [Call.isPump, Call.fromWndProc]

theorem not_isQueueEmpty_of_fromWndProc (c : Call F) (h : Call.fromWndProc c = true) :
    Call.isQueueEmpty c = false := by
  cases c <;> simp_all [Call.isQueueEmpty, Call.fromWndProc]

theorem not_isFrameCall_of_isPump (c : Call F) (h : Call.isPump c = true) :
    Call.isFrameCall c = false := by
  cases c <;> simp_all [Call.isPump, Call.fromWndProc, Call.isFrameCall, Call.isWidget]

theorem isFrameCall_of_isWidget (c : Call F) (h : Call.isWidget c = true) :
    Call.isFrameCall c = true := by
  cases c <;> simp_all [Call.isFrameCall, Call.isWidget]

theorem not_isNewFrame_of_isPump (c : Call F) (h : Call.isPump c = true) :
    Call.isNewFrame c = false := by
  cases c <;> simp_all [Call.isPump, Call.fromWndProc, Call.isNewFrame]

theorem not_isRender_of_isPump (c : Call F) (h : Call.isPump c = true) :
    Call.isRender c = false := by
  cases c <;> simp_all [Call.isPump, Call.fromWndProc, Call.isRender]

theorem not_isWidget_of_isPump (c : Call F) (h : Call.isPump c = true) :
    Call.isWidget c = false := by
  cases c <;> simp_all [Call.isPump, Call.fromWndProc, Call.isWidget]

theorem not_isNewFrame_of_isWidget (c : Call F) (h : Call.isWidget c = true) :
    Call.isNewFrame c = false := by
  cases c <;> simp_all [Call.isWidget, Call.isNewFrame]

theorem not_isRender_of_isWidget (c : Call F) (h : Call.isWidget c = true) :
    Call.isRender c = false := by
  cases c <;> simp_all [Call.isWidget, Call.isRender]

theorem not_isQueueEmpty_of_isWidget (c : Call F) (h : Call.isWidget c = true) :
    Call.isQueueEmpty c = false := by
  cases c <;> simp_all [Call.isWidget, Call.isQueueEmpty]

theorem countP_eq_zero_of_forall {p : Call F → Bool} {t : List (Call F)}
    (h : ∀ c ∈ t, p c = false) : t.countP p = 0 := by
  rw [List.countP_eq_zero]
  intro c hc
  simp [h c hc]

/-- The flag the pump returns: the incoming flag, or some drained message is `WM_QUIT`. -/
theorem pumpMessages_done (b : List PumpItem) (done : Bool) (s : State F) :
    (pumpMessages b done s).1 = (done || b.any PumpItem.isQuit) := by
  induction b generalizing done s with
  | nil => simp [pumpMessages]
  | cons it rest ih =>
    simp only [pumpMessages, ih, List.any_cons, PumpItem.isQuit]
    by_cases h : it.msg.message = WM_QUIT <;> simp [h]

/-- The calls of one drain: pump calls only, exactly one of them the final
`PeekMessage` that finds the queue empty. -/
theorem pumpMessages_trace (b : List PumpItem) (done : Bool) (s : State F) :
    ∃ t, (pumpMessages b done s).2.trace = s.trace ++ t ∧
      (∀ c ∈ t, Call.isPump c = true) ∧ t.countP Call.isQueueEmpty = 1 := by
  induction b generalizing done s with
  | nil =>
    exact ⟨[.PeekMessage none], rfl, by simp [Call.isPump], by simp [Call.isQueueEmpty]⟩
  | cons it rest ih =>
    obtain ⟨t1, h1, p1⟩ := deliver_extends it.onDispatch
      (((s.emit (.PeekMessage (some it.msg))).emit (.TranslateMessage it.msg)).emit
        (.DispatchMessage it.msg))
    obtain ⟨t2, h2, p2, c2⟩ := ih (if it.msg.message = WM_QUIT then true else done)
      (deliver it.onDispatch
        (((s.emit (.PeekMessage (some it.msg))).emit (.TranslateMessage it.msg)).emit
          (.DispatchMessage it.msg)))
    refine ⟨[.PeekMessage (some it.msg), .TranslateMessage it.msg, .DispatchMessage it.msg]
      ++ t1 ++ t2, ?_, ?_, ?_⟩
    · simp only [pumpMessages]
      rw [h2, h1]
      simp [State.emit]
    · intro c hc
      simp only [List.mem_append, List.mem_cons, List.mem_singleton, List.not_mem_nil,
        or_false] at hc
      rcases hc with ((h | h | h) | h) | h
      · subst h; rfl
      · subst h; rfl
      · subst h; rfl
      · exact isPump_of_fromWndProc c (p1 c h)
      · exact p2 c h
    · have hz : t1.countP Call.isQueueEmpty = 0 :=
        countP_eq_zero_of_forall fun c hc => not_isQueueEmpty_of_fromWndProc c (p1 c hc)
      simp [List.countP_append, hz, c2, List.countP_cons, Call.isQueueEmpty]

theorem iteration_of_no_quit [Mul F] [Div F] [OfScientific F]
    (fi : FrameInput F) (l : Locals F) (s : State F)
    (h : fi.batch.any PumpItem.isQuit = false) :
    iteration fi l s =
      (false, (frameBody fi l (pumpMessages fi.batch false s).2).1,
        (frameBody fi l (pumpMessages fi.batch false s).2).2) := by
  have hd := pumpMessages_done fi.batch false s
  rw [h] at hd
  unfold iteration
  rcases hp : pumpMessages fi.batch false s with ⟨d, s1⟩
  rw [hp] at hd
  simp only [Bool.or_self] at hd
  simp only [hd]
  rfl

theorem iteration_of_quit [Mul F] [Div F] [OfScientific F]
    (fi : FrameInput F) (l : Locals F) (s : State F)
    (h : fi.batch.any PumpItem.isQuit = true) :
    iteration fi l s = (true, l, (pumpMessages fi.batch false s).2) := by
  have hd := pumpMessages_done fi.batch false s
  rw [h] at hd
  unfold iteration
  rcases hp : pumpMessages fi.batch false s with ⟨d, s1⟩
  rw [hp] at hd
  simp only [Bool.false_or] at hd
  simp only [hd]
  rfl

/-! ## The frame loop -/

theorem any_isQuit_eq_false (b : List PumpItem)
    (h : ∀ it ∈ b, it.msg.message ≠ WM_QUIT) : b.any PumpItem.isQuit = false := by
  rw [List.any_eq_false]
  intro it hit
  simp [PumpItem.isQuit, h it hit]

theorem any_isQuit_eq_true (b : List PumpItem)
    (h : ∃ it ∈ b, it.msg.message = WM_QUIT) : b.any PumpItem.isQuit = true := by
  rw [List.any_eq_true]
  obtain ⟨it, hit, hq⟩ := h
  exact ⟨it, hit, by simp [PumpItem.isQuit, hq]⟩

theorem frameLoop_cons_no_quit [Mul F] [Div F] [OfScientific F]
    (fi : FrameInput F) (rest : List (FrameInput F))
    (l : Locals F) (s : State F) (h : fi.batch.any PumpItem.isQuit = false) :
    frameLoop (fi :: rest) l s =
      frameLoop rest (frameBody fi l (pumpMessages fi.batch false s).2).1
        (frameBody fi l (pumpMessages fi.batch false s).2).2 := by
  rw [frameLoop, iteration_of_no_quit fi l s h]

theorem frameLoop_cons_quit [Mul F] [Div F] [OfScientific F]
    (fi : FrameInput F) (rest : List (FrameInput F))
    (l : Locals F) (s : State F) (h : fi.batch.any PumpItem.isQuit = true) :
    frameLoop (fi :: rest) l s = (true, l, (pumpMessages fi.batch false s).2) := by
  rw [frameLoop, iteration_of_quit fi l s h]

/-- The calls of one complete iteration: one drain, one `NewFrame`, one `Render`. -/
theorem full_iteration_segment [Mul F] [Div F] [OfScientific F]
    (fi : FrameInput F) (l : Locals F) (s : State F) :
    ∃ seg, (frameBody fi l (pumpMessages fi.batch false s).2).2.trace = s.trace ++ seg ∧
      seg.countP Call.isQueueEmpty = 1 ∧ seg.countP Call.isNewFrame = 1 ∧
      seg.countP Call.isRender = 1 ∧
      ∀ c ∈ seg, Call.isPump c = true ∨ Call.isFrameCall c = true := by
  obtain ⟨t, ht, pt, ct⟩ := pumpMessages_trace fi.batch false s
  have hw := widgetPass_isWidget fi.widgets fi.framerate l
  have w1 : (widgetPass fi.widgets fi.framerate l).2.countP Call.isQueueEmpty = 0 :=
    countP_eq_zero_of_forall fun c hc => not_isQueueEmpty_of_isWidget c (hw c hc)
  have w2 : (widgetPass fi.widgets fi.framerate l).2.countP Call.isNewFrame = 0 :=
    countP_eq_zero_of_forall fun c hc => not_isNewFrame_of_isWidget c (hw c hc)
  have w3 : (widgetPass fi.widgets fi.framerate l).2.countP Call.isRender = 0 :=
    countP_eq_zero_of_forall fun c hc => not_isRender_of_isWidget c (hw c hc)
  have t2 : t.countP Call.isNewFrame = 0 :=
    countP_eq_zero_of_forall fun c hc => not_isNewFrame_of_isPump c (pt c hc)
  have t3 : t.countP Call.isRender = 0 :=
    countP_eq_zero_of_forall fun c hc => not_isRender_of_isPump c (pt c hc)
  rw [frameBody_eq]
  simp only [ht, List.append_assoc]
  refine ⟨_, rfl, ?_, ?_, ?_, ?_⟩
  · simp [List.countP_append, List.countP_cons, ct, w1, Call.isQueueEmpty]
  · simp [List.countP_append, List.countP_cons, t2, w2, Call.isNewFrame]
  · simp [List.countP_append, List.countP_cons, t3, w3, Call.isRender]
  · intro c hc
    simp only [List.mem_append, List.mem_cons, List.mem_singleton, List.not_mem_nil,
      or_false] at hc
    rcases hc with h | (h | h | h) | h | h
    · exact Or.inl (pt c h)
    · subst h; exact Or.inr rfl
    · subst h; exact Or.inr rfl
    · subst h; exact Or.inr rfl
    · exact Or.inr (isFrameCall_of_isWidget c (hw c h))
    · rcases h with h | h | h | h | h | h <;> subst h <;> exact Or.inr rfl

/-- C8: one loop iteration in which no drained message is `WM_QUIT`.  The loop
goes on (`done` stays false), and after the message pump, which makes none of the
frame calls, the iteration makes exactly these calls in this order:
`ImGui_ImplDX11_NewFrame`, `ImGui_ImplWin32_NewFrame`, `ImGui::NewFrame`, the
widget declarations (widget calls only), `ImGui::Render`, `OMSetRenderTargets`
(1 view), `ClearRenderTargetView`, `ImGui_ImplDX11_RenderDrawData` on
`ImGui::GetDrawData()`, `Present(1, 0)`. -/
theorem iteration_call_order [Mul F] [Div F] [OfScientific F]
    (fi : FrameInput F) (l : Locals F) (s : State F)
    (hq : ∀ it ∈ fi.batch, it.msg.message ≠ WM_QUIT) :
    (iteration fi l s).1 = false ∧
    ∃ pump, (pumpMessages fi.batch false s).2.trace = s.trace ++ pump ∧
      (∀ c ∈ pump, Call.isFrameCall c = false) ∧
      (∀ c ∈ (widgetPass fi.widgets fi.framerate l).2, Call.isWidget c = true) ∧
      (iteration fi l s).2.2.trace = s.trace ++ pump ++
        [Call.ImGui_ImplDX11_NewFrame, .ImGui_ImplWin32_NewFrame, .ImGui_NewFrame] ++
        (widgetPass fi.widgets fi.framerate l).2 ++
        [.ImGui_Render,
          .OMSetRenderTargets (pumpMessages fi.batch false s).2.g_pd3dDeviceContext 1
            (pumpMessages fi.batch false s).2.g_mainRenderTargetView 0,
          .ClearRenderTargetView (pumpMessages fi.batch false s).2.g_pd3dDeviceContext
            (pumpMessages fi.batch false s).2.g_mainRenderTargetView
            (clear_color_with_alpha (widgetPass fi.widgets fi.framerate l).1.clear_color),
          .ImGui_GetDrawData, .ImGui_ImplDX11_RenderDrawData,
          .Present (pumpMessages fi.batch false s).2.g_pSwapChain 1 0] := by
  rw [iteration_of_no_quit fi l s (any_isQuit_eq_false _ hq)]
  obtain ⟨t, ht, pt, -⟩ := pumpMessages_trace fi.batch false s
  refine ⟨rfl, t, ht, fun c hc => not_isFrameCall_of_isPump c (pt c hc),
    widgetPass_isWidget _ _ _, ?_⟩
  rw [frameBody_eq]
  simp only [ht, List.append_assoc]

/-- C6: the frame loop on a script of per-iteration message batches in which
the batches of `pre` contain no `WM_QUIT` and the batch of `q` contains one.
The loop is still running after the iterations of `pre` and has exited after
the iteration of `q`, whatever follows in the script.  Its calls split into one
segment per iteration of `pre`, each with exactly one drain of the queue, one
`NewFrame` and one `Render`, followed by the calls of the exiting iteration:
one drain, no `NewFrame`, no `Render`, no widget declaration. -/
theorem frameLoop_exits_at_first_quit [Mul F] [Div F] [OfScientific F]
    (pre : List (FrameInput F)) (q : FrameInput F)
    (rest : List (FrameInput F)) (l : Locals F) (s : State F)
    (hpre : ∀ fi ∈ pre, ∀ it ∈ fi.batch, it.msg.message ≠ WM_QUIT)
    (hq : ∃ it ∈ q.batch, it.msg.message = WM_QUIT) :
    (frameLoop pre l s).1 = false ∧
    (frameLoop (pre ++ q :: rest) l s).1 = true ∧
    ∃ (segs : List (List (Call F))) (last : List (Call F)),
      (frameLoop (pre ++ q :: rest) l s).2.2.trace = s.trace ++ segs.flatten ++ last ∧
      segs.length = pre.length ∧
      (∀ seg ∈ segs, seg.countP Call.isQueueEmpty = 1 ∧ seg.countP Call.isNewFrame = 1 ∧
        seg.countP Call.isRender = 1) ∧
      last.countP Call.isQueueEmpty = 1 ∧ last.countP Call.isNewFrame = 0 ∧
      last.countP Call.isRender = 0 ∧ last.countP Call.isWidget = 0 := by
  induction pre generalizing l s with
  | nil =>
    obtain ⟨t, ht, pt, ct⟩ := pumpMessages_trace q.batch false s
    refine ⟨rfl, ?_, [], t, ?_, rfl, by simp, ct, ?_, ?_, ?_⟩
    · simp [frameLoop_cons_quit q rest l s (any_isQuit_eq_true _ hq)]
    · simp [frameLoop_cons_quit q rest l s (any_isQuit_eq_true _ hq), ht]
    · exact countP_eq_zero_of_forall fun c hc => not_isNewFrame_of_isPump c (pt c hc)
    · exact countP_eq_zero_of_forall fun c hc => not_isRender_of_isPump c (pt c hc)
    · exact countP_eq_zero_of_forall fun c hc => not_isWidget_of_isPump c (pt c hc)
  | cons fi pre ih =>
    have hfi := any_isQuit_eq_false fi.batch (hpre fi (List.mem_cons_self _ _))
    have hpre1 : ∀ fj ∈ pre, ∀ it ∈ fj.batch, it.msg.message ≠ WM_QUIT :=
      fun fj hfj => hpre fj (List.mem_cons_of_mem _ hfj)
    obtain ⟨seg, hseg, c1, c2, c3, -⟩ := full_iteration_segment fi l s
    obtain ⟨r1, r2, segs, last, htr, hlen, hsegs, hlast⟩ :=
      ih (frameBody fi l (pumpMessages fi.batch false s).2).1
        (frameBody fi l (pumpMessages fi.batch false s).2).2 hpre1
    rw [List.cons_append, frameLoop_cons_no_quit fi _ l s hfi,
      frameLoop_cons_no_quit fi _ l s hfi]
    refine ⟨r1, r2, seg :: segs, last, ?_, by simp [hlen], ?_, hlast⟩
    · rw [htr, hseg]
      simp [List.append_assoc]
    · intro x hx
      rcases List.mem_cons.mp hx with h | h
      · subst h; exact ⟨c1, c2, c3⟩
      · exact hsegs x h

/-! ## Facts about `main` -/

theorem lifecycle_of_fromWndProc (c : Call F) (h : Call.fromWndProc c = true) :
    Call.lifecycle c = none := by
  cases c <;> simp_all [Call.fromWndProc, Call.lifecycle]

theorem lifecycle_of_isPump (c : Call F) (h : Call.isPump c = true) :
    Call.lifecycle c = none := by
  cases c <;> simp_all [Call.isPump, Call.fromWndProc, Call.lifecycle]

theorem lifecycle_of_isFrameCall (c : Call F) (h : Call.isFrameCall c = true) :
    Call.lifecycle c = none := by
  cases c <;> simp_all [Call.isFrameCall, Call.isWidget, Call.lifecycle]

theorem not_isUIInit_of_fromWndProc (c : Call F) (h : Call.fromWndProc c = true) :
    Call.isUIInit c = false := by
  cases c <;> simp_all [Call.fromWndProc, Call.isUIInit]

theorem not_inFrameLoop_of_fromWndProc (c : Call F) (h : Call.fromWndProc c = true) :
    Call.inFrameLoop c = false := by
  cases c <;> simp_all [Call.fromWndProc, Call.inFrameLoop, Call.isFrameCall, Call.isWidget]

theorem fromWndProc_of_mem_releaseIf (i : Iface) (h : Handle) (c : Call F)
    (hc : c ∈ (releaseIf i h : List (Call F))) : Call.fromWndProc c = true := by
  unfold releaseIf at hc
  split_ifs at hc
  · simp only [List.mem_singleton] at hc
    subst hc; rfl
  · simp at hc

theorem lifecycle_releaseIf (i : Iface) (h : Handle) :
    (releaseIf i h : List (Call F)).filterMap Call.lifecycle = [] :=
  List.filterMap_eq_nil_iff.mpr fun c hc =>
    lifecycle_of_fromWndProc c (fromWndProc_of_mem_releaseIf i h c hc)

theorem lifecycle_deliver (ds : List Delivery) (s : State F) :
    (deliver ds s).trace.filterMap Call.lifecycle = s.trace.filterMap Call.lifecycle :=
  (deliver_extends ds s).filterMap_eq _ lifecycle_of_fromWndProc

theorem CreateDeviceD3D_eq (o : DeviceOutcome) (hWnd : Handle) (s : State F) :
    CreateDeviceD3D o hWnd s =
      if o.res ≠ S_OK then
        (false, { s with
          g_pSwapChain := o.swapChain.getD s.g_pSwapChain
          g_pd3dDevice := o.device.getD s.g_pd3dDevice
          g_pd3dDeviceContext := o.context.getD s.g_pd3dDeviceContext
          trace := s.trace ++ [Call.CreateDeviceD3D hWnd,
            .D3D11CreateDeviceAndSwapChain D3D_DRIVER_TYPE_HARDWARE 0
              [D3D_FEATURE_LEVEL_11_0, D3D_FEATURE_LEVEL_10_0] (swapChainDesc hWnd)] })
      else
        (true, { s with
          g_pSwapChain := o.swapChain.getD s.g_pSwapChain
          g_pd3dDevice := o.device.getD s.g_pd3dDevice
          g_pd3dDeviceContext := o.context.getD s.g_pd3dDeviceContext
          g_mainRenderTargetView := o.renderTarget.view.getD s.g_mainRenderTargetView
          trace := s.trace ++ [Call.CreateDeviceD3D hWnd,
            .D3D11CreateDeviceAndSwapChain D3D_DRIVER_TYPE_HARDWARE 0
              [D3D_FEATURE_LEVEL_11_0, D3D_FEATURE_LEVEL_10_0] (swapChainDesc hWnd),
            .CreateRenderTarget, .GetBuffer (o.swapChain.getD s.g_pSwapChain) 0,
            .CreateRenderTargetView (o.device.getD s.g_pd3dDevice) o.renderTarget.backBuffer,
            .Release .ID3D11Texture2D o.renderTarget.backBuffer] }) := by
  unfold CreateDeviceD3D
  by_cases h : o.res = S_OK <;> simp [h, State.emit, CreateRenderTarget_eq]

theorem frameLoop_extends [Mul F] [Div F] [OfScientific F]
    (frames : List (FrameInput F)) (l : Locals F) (s : State F) :
    Extends (fun c => Call.isPump c = true ∨ Call.isFrameCall c = true) s
      (frameLoop frames l s).2.2 := by
  induction frames generalizing l s with
  | nil => exact Extends.refl _ _
  | cons fi rest ih =>
    by_cases h : fi.batch.any PumpItem.isQuit = true
    · rw [frameLoop_cons_quit fi rest l s h]
      obtain ⟨t, ht, pt, -⟩ := pumpMessages_trace fi.batch false s
      exact ⟨t, ht, fun c hc => Or.inl (pt c hc)⟩
    · rw [frameLoop_cons_no_quit fi rest l s (by simpa using h)]
      obtain ⟨seg, hseg, -, -, -, pseg⟩ := full_iteration_segment fi l s
      exact Extends.trans ⟨seg, hseg, pseg⟩ (ih _ _)

theorem frameLoop_exits [Mul F] [Div F] [OfScientific F]
    (frames : List (FrameInput F)) (l : Locals F) (s : State F) :
    (frameLoop frames l s).1 = frames.any FrameInput.hasQuit := by
  induction frames generalizing l s with
  | nil => rfl
  | cons fi rest ih =>
    by_cases h : fi.batch.any PumpItem.isQuit = true
    · rw [frameLoop_cons_quit fi rest l s h]
      simp [FrameInput.hasQuit, h]
    · rw [frameLoop_cons_no_quit fi rest l s (by simpa using h), ih]
      simp [FrameInput.hasQuit, h]

theorem lifecycle_frameLoop [Mul F] [Div F] [OfScientific F]
    (frames : List (FrameInput F)) (l : Locals F) (s : State F) :
    (frameLoop frames l s).2.2.trace.filterMap Call.lifecycle =
      s.trace.filterMap Call.lifecycle :=
  (frameLoop_extends frames l s).filterMap_eq _ fun c hc =>
    hc.elim (lifecycle_of_isPump c) (lifecycle_of_isFrameCall c)

/-- The state in which `main` calls `CreateDeviceD3D`: the window class is
registered, the window is created, the four handles are still null. -/
theorem main_before_device (env : Env F) :
    ∃ wnd : List (Call F), (∀ c ∈ wnd, Call.fromWndProc c = true) ∧
      deliver env.onCreateWindow
        ((((State.start F).emit .GetModuleHandle).emit .RegisterClassExW).emit
          (.CreateWindowW WS_OVERLAPPEDWINDOW 100 100 1280 800)) =
      { g_pd3dDevice := 0, g_pd3dDeviceContext := 0, g_pSwapChain := 0,
        g_mainRenderTargetView := 0,
        trace := [Call.GetModuleHandle, .RegisterClassExW,
          .CreateWindowW WS_OVERLAPPEDWINDOW 100 100 1280 800] ++ wnd } := by
  obtain ⟨wnd, hw, pw⟩ := deliver_extends env.onCreateWindow
    ((((State.start F).emit .GetModuleHandle).emit .RegisterClassExW).emit
      (.CreateWindowW WS_OVERLAPPEDWINDOW 100 100 1280 800))
  have hh := deliver_handles_of_no_device env.onCreateWindow
    ((((State.start F).emit .GetModuleHandle).emit .RegisterClassExW).emit
      (.CreateWindowW WS_OVERLAPPEDWINDOW 100 100 1280 800)) rfl
  refine ⟨wnd, pw, ?_⟩
  generalize deliver env.onCreateWindow _ = s1 at hw hh
  rcases s1 with ⟨a, b, c, d, t⟩
  simp only [State.handles, State.emit, State.start, Prod.mk.injEq] at hh hw
  obtain ⟨h1, h2, h3, h4⟩ := hh
  subst h1 h2 h3 h4
  simp [hw]

/-- C1: a run of `main` in which `D3D11CreateDeviceAndSwapChain` returns a
result other than `S_OK`.  `main` returns 1; at return the four handles are
null, whatever the failed call stored in the swap chain, device and context
handles; no call of the UI initialisation and no call of the frame loop is
made.  The calls of the run are: `GetModuleHandle`, `RegisterClassExW`,
`CreateWindowW` (with the window procedure calls it triggers),
`CreateDeviceD3D` with its platform call, `CleanupDeviceD3D` with one
`Release` per handle the platform call left non-null, `UnregisterClassW`. -/
theorem main_device_creation_failure [Mul F] [Div F] [OfScientific F]
    (env : Env F) (hfail : env.device.res ≠ S_OK) :
    (main env).1 = some 1 ∧
    (main env).2.handles = (0, 0, 0, 0) ∧
    (∀ c ∈ (main env).2.trace, Call.isUIInit c = false ∧ Call.inFrameLoop c = false) ∧
    ∃ wnd : List (Call F), (∀ c ∈ wnd, Call.fromWndProc c = true) ∧
      (main env).2.trace =
        [Call.GetModuleHandle, .RegisterClassExW,
          .CreateWindowW WS_OVERLAPPEDWINDOW 100 100 1280 800] ++ wnd ++
        [.CreateDeviceD3D env.hwnd,
          .D3D11CreateDeviceAndSwapChain D3D_DRIVER_TYPE_HARDWARE 0
            [D3D_FEATURE_LEVEL_11_0, D3D_FEATURE_LEVEL_10_0] (swapChainDesc env.hwnd),
          .CleanupDeviceD3D, .CleanupRenderTarget] ++
        releaseIf .IDXGISwapChain (env.device.swapChain.getD 0) ++
        releaseIf .ID3D11DeviceContext (env.device.context.getD 0) ++
        releaseIf .ID3D11Device (env.device.device.getD 0) ++
        [.UnregisterClassW] := by
  obtain ⟨wnd, pw, hs⟩ := main_before_device env
  have htrace : (main env).2.trace =
      [Call.GetModuleHandle, .RegisterClassExW,
          .CreateWindowW WS_OVERLAPPEDWINDOW 100 100 1280 800] ++ wnd ++
        [.CreateDeviceD3D env.hwnd,
          .D3D11CreateDeviceAndSwapChain D3D_DRIVER_TYPE_HARDWARE 0
            [D3D_FEATURE_LEVEL_11_0, D3D_FEATURE_LEVEL_10_0] (swapChainDesc env.hwnd),
          .CleanupDeviceD3D, .CleanupRenderTarget] ++
        releaseIf .IDXGISwapChain (env.device.swapChain.getD 0) ++
        releaseIf .ID3D11DeviceContext (env.device.context.getD 0) ++
        releaseIf .ID3D11Device (env.device.device.getD 0) ++
        [.UnregisterClassW] := by
    simp only [main, hs]
    simp [CreateDeviceD3D_eq, hfail, CleanupDeviceD3D_eq, State.emit, releaseIf]
  refine ⟨?_, ?_, ?_, wnd, pw, htrace⟩
  · simp only [main, hs]
    simp [CreateDeviceD3D_eq, hfail]
  · simp only [main, hs]
    simp [CreateDeviceD3D_eq, hfail, CleanupDeviceD3D_eq, State.emit, State.handles]
  · have hrel : ∀ (i : Iface) (h : Handle), ∀ c ∈ (releaseIf i h : List (Call F)),
        Call.isUIInit c = false ∧ Call.inFrameLoop c = false := fun i h c hc =>
      ⟨not_isUIInit_of_fromWndProc c (fromWndProc_of_mem_releaseIf i h c hc),
        not_inFrameLoop_of_fromWndProc c (fromWndProc_of_mem_releaseIf i h c hc)⟩
    rw [htrace]
    simp only [List.forall_mem_append]
    refine ⟨⟨⟨⟨⟨⟨?_, ?_⟩, ?_⟩, hrel _ _⟩, hrel _ _⟩, hrel _ _⟩, ?_⟩
    · simp [Call.isUIInit, Call.inFrameLoop, Call.isFrameCall, Call.isWidget]
    · exact fun c hc =>
        ⟨not_isUIInit_of_fromWndProc c (pw c hc), not_inFrameLoop_of_fromWndProc c (pw c hc)⟩
    · simp [Call.isUIInit, Call.inFrameLoop, Call.isFrameCall, Call.isWidget]
    · simp [Call.isUIInit, Call.inFrameLoop, Call.isFrameCall, Call.isWidget]

/-- C7: a run of `main` in which device creation succeeds and a quit message
arrives.  `main` returns 0, and the initialisation and teardown calls of the
run are, in order: register window class, create window, `CreateDeviceD3D`,
create UI context, init Win32 adapter, init DX11 adapter; then shut down DX11
adapter, shut down Win32 adapter, destroy UI context, `CleanupDeviceD3D`,
destroy window, unregister window class: the teardown is the initialisation
order reversed. -/
theorem main_teardown_reverses_init [Mul F] [Div F] [OfScientific F]
    (env : Env F) (hok : env.device.res = S_OK)
    (hquit : ∃ fi ∈ env.frames, ∃ it ∈ fi.batch, it.msg.message = WM_QUIT) :
    (main env).1 = some 0 ∧
    (main env).2.trace.filterMap Call.lifecycle =
      initOrder.map (fun st => (Phase.init, st)) ++
        initOrder.reverse.map (fun st => (Phase.teardown, st)) := by
  have hany : env.frames.any FrameInput.hasQuit = true := by
    rw [List.any_eq_true]
    obtain ⟨fi, hfi, hit⟩ := hquit
    exact ⟨fi, hfi, any_isQuit_eq_true _ hit⟩
  unfold main
  simp only [CreateDeviceD3D_eq, hok, ne_eq, not_true_eq_false, if_false]
  generalize hs : (State.emit _ (Call.ImGui_ImplDX11_Init _ _) : State F) = s1
  have hex := frameLoop_exits env.frames Locals.start s1
  have hlc := lifecycle_frameLoop env.frames Locals.start s1
  rw [hany] at hex
  rcases hfl : frameLoop env.frames Locals.start s1 with ⟨d, l2, s2⟩
  rw [hfl] at hex hlc
  simp only at hex hlc
  subst hex
  refine ⟨rfl, ?_⟩
  simp only [CleanupDeviceD3D_eq, State.emit, List.filterMap_append, lifecycle_deliver,
    lifecycle_releaseIf, hlc]
  subst hs
  simp [State.emit, State.start, List.filterMap_append, lifecycle_deliver, Call.lifecycle,
    initOrder]

/-! ## Evaluations at the concrete inputs -/

/-- Counterexample to C4 as stated: with the counter at `INT_MAX = 2147483647`
and "Button" activated, the counter after the pass is `-2147483648`, not
`2147483647 + 1`. -/
theorem widgetPass_counter_overflows_at_INT_MAX :
    clickOnly.button = true ∧ counterAtMax.counter = 2147483647 ∧
    (widgetPass clickOnly 60 counterAtMax).1.counter = -2147483648 ∧
    (widgetPass clickOnly 60 counterAtMax).1.counter ≠ counterAtMax.counter + 1 := by
  rw [widgetPass_counter_eq]
  refine ⟨rfl, rfl, ?_, ?_⟩ <;> simp [clickOnly, counterAtMax, int_incr]

theorem widgetPass_counter_witness :
    clickOnly.button = true ∧ INT_MIN ≤ counterAt41.counter ∧ counterAt41.counter < INT_MAX ∧
    (widgetPass clickOnly 60 counterAt41).1.counter = counterAt41.counter + 1 :=
  ⟨rfl, by decide, by decide,
    (widgetPass_counter clickOnly 60 counterAt41).2 rfl (by decide) (by decide)⟩

theorem iteration_call_order_witness :
    (∀ it ∈ idleFrame.batch, it.msg.message ≠ WM_QUIT) ∧
    (iteration idleFrame counterAt41 liveState).1 = false :=
  ⟨by simp [idleFrame],
    (iteration_call_order idleFrame counterAt41 liveState (by simp [idleFrame])).1⟩

theorem frameLoop_exits_at_first_quit_witness :
    (∀ fi ∈ [idleFrame], ∀ it ∈ fi.batch, it.msg.message ≠ WM_QUIT) ∧
    (∃ it ∈ quitFrame.batch, it.msg.message = WM_QUIT) ∧
    (frameLoop [idleFrame] counterAt41 liveState).1 = false ∧
    (frameLoop ([idleFrame] ++ quitFrame :: [idleFrame]) counterAt41 liveState).1 = true :=
  ⟨by simp [idleFrame], by simp [quitFrame],
    (frameLoop_exits_at_first_quit [idleFrame] quitFrame [idleFrame] counterAt41 liveState
      (by simp [idleFrame]) (by simp [quitFrame])).1,
    (frameLoop_exits_at_first_quit [idleFrame] quitFrame [idleFrame] counterAt41 liveState
      (by simp [idleFrame]) (by simp [quitFrame])).2.1⟩

theorem main_device_creation_failure_witness :
    failedRun.device.res ≠ S_OK ∧ (main failedRun).1 = some 1 ∧
    (main failedRun).2.handles = (0, 0, 0, 0) :=
  ⟨by decide, (main_device_creation_failure failedRun (by decide)).1,
    (main_device_creation_failure failedRun (by decide)).2.1⟩

theorem main_teardown_reverses_init_witness :
    shortRun.device.res = S_OK ∧
    (∃ fi ∈ shortRun.frames, ∃ it ∈ fi.batch, it.msg.message = WM_QUIT) ∧
    (main shortRun).1 = some 0 ∧
    (main shortRun).2.trace.filterMap Call.lifecycle =
      [(.init, .windowClass), (.init, .window), (.init, .device), (.init, .uiContext),
        (.init, .win32Adapter), (.init, .dx11Adapter), (.teardown, .dx11Adapter),
        (.teardown, .win32Adapter), (.teardown, .uiContext), (.teardown, .device),
        (.teardown, .window), (.teardown, .windowClass)] :=
  ⟨rfl, ⟨quitFrame, by simp [shortRun], by simp [quitFrame]⟩,
    main_teardown_reverses_init shortRun rfl
      ⟨quitFrame, by simp [shortRun], by simp [quitFrame]⟩⟩

end ImGuiTutorial
